import Mathlib

/-!
Shallow embedding of the broadcast-socket-server event router
(createSocketServer in server.ts): the data contracts from types.ts,
the Proxy Client (sendToProxy), the Event Router handlers for the
connection, message and disconnect lifecycle events, and the POST /proxy
ingestion endpoint. Handlers are modelled as pure functions from their
inputs (configuration, handshake channel tag, socket id, the current
clock value, and the outcome of the single outbound HTTP call) to the
list of observable effects they perform, in order. Delivery of messages
to connections is interpreted over an abstract room-membership map,
matching the transport collaborator contract (socket.emit delivers to
one socket; io.to(channel).emit delivers to every member of the room).
-/

namespace BroadcastSocket

/-- Opaque structured payload (the `any`-typed `data` fields). The
router never inspects it; the only shape the router itself constructs
is the object with a single `text` field used by the welcome message,
modelled by the `textObj` constructor. -/
inductive JsData where
  | textObj (text : String)
  | raw (s : String)
deriving DecidableEq, Repr

/-- ChannelMessage from types.ts: data, timestamp (ms since epoch,
modelled as Nat), optional sender tag. -/
structure ChannelMessage where
  data : JsData
  timestamp : Nat
  sender : Option String
deriving DecidableEq, Repr

/-- The closed event enumeration of ProxyEventPayload.event. -/
inductive ProxyEventKind where
  | connection
  | message
  | disconnect
deriving DecidableEq, Repr

/-- ProxyEventPayload from types.ts: the envelope POSTed to the
configured proxy. `data` is optional (present only for message events). -/
structure ProxyEventPayload where
  event : ProxyEventKind
  channel : String
  socketId : String
  timestamp : Nat
  data : Option JsData
deriving DecidableEq, Repr

/-- ProxyEventResponse from types.ts: optional single message and
optional message array. `none` models an absent (or JS-falsy, i.e.
null/undefined) field; `some []` models a present but empty array,
which is truthy in JS. -/
structure ProxyEventResponse where
  message : Option ChannelMessage
  messages : Option (List ChannelMessage)
deriving DecidableEq, Repr

/-- ProxyConfig from types.ts. -/
structure ProxyConfig where
  url : String
  bearerToken : Option String
deriving DecidableEq, Repr

/-- ServerConfig from types.ts: proxy presence is the single switch
between mediated and default-broadcast modes. -/
structure ServerConfig where
  port : Nat
  corsOrigin : String
  proxy : Option ProxyConfig
deriving DecidableEq, Repr

/-- Outcome of the one outbound HTTP POST that sendToProxy attempts:
either the fetch itself throws (transport failure), or a response
arrives with a success flag (response.ok), a status code, and a body
that either parses as a ProxyEventResponse (`some r`) or is malformed
JSON so that response.json() throws (`none`). -/
inductive HttpOutcome where
  | transportError
  | response (ok : Bool) (statusCode : Nat) (body : Option ProxyEventResponse)
deriving DecidableEq, Repr

/-- sendToProxy from server.ts lines 20-51: returns null (here `none`,
the NoOpinion sentinel) when no proxy is configured, on a non-ok HTTP
status, and when the fetch or the body parse throws; otherwise returns
the parsed ProxyEventResponse. The try/catch in the source means every
branch ends in a return value, never an exception. -/
def sendToProxy (config : ServerConfig) (outcome : HttpOutcome) :
    Option ProxyEventResponse :=
  match config.proxy with
  | none => none
  | some _ =>
    match outcome with
    | .transportError => none
    | .response ok _ body =>
      if ok then
        match body with
        | some r => some r
        | none => none
      else none

/-- Observable effects a handler performs, in program order.
`emitToSocket` is socket.emit on one specific socket; `emitToChannel`
is io.to(channel).emit on a room; `joinChannel` is socket.join;
`disconnectSocket` is socket.disconnect; `proxyDispatch` records that a
ProxyEventPayload was sent to the proxy, with `awaited = true` when the
handler awaits the response and `false` for fire-and-forget. -/
inductive Effect where
  | emitToSocket (socketId : String) (msg : ChannelMessage)
  | emitToChannel (channel : String) (msg : ChannelMessage)
  | joinChannel (socketId : String) (channel : String)
  | disconnectSocket (socketId : String)
  | proxyDispatch (payload : ProxyEventPayload) (awaited : Bool)
deriving DecidableEq, Repr

/-- Interpretation of a proxy response, duplicated verbatim in the
source at lines 111-120 (connection handler) and 145-152 (message
handler): if the response has a messages field (any array, the empty
array included, since an array is truthy in JS), emit each entry in
order to this specific socket; otherwise if it has a message field,
emit that single message to this socket; otherwise emit nothing. -/
def respEffects (socketId : String) (proxyResponse : Option ProxyEventResponse) :
    List Effect :=
  match proxyResponse with
  | some r =>
    match r.messages with
    | some msgs => List.map (Effect.emitToSocket socketId) msgs
    | none =>
      match r.message with
      | some m => [Effect.emitToSocket socketId m]
      | none => []
  | none => []

/-- The connection handler, server.ts lines 87-130. `channelQ` is the
handshake channel query value (`none` absent, `some ""` empty: both are
falsy in JS). `now` is the clock value during this handler run and
`outcome` the result of the one HTTP call made when a proxy is
configured. -/
def onConnection (config : ServerConfig) (channelQ : Option String)
    (socketId : String) (now : Nat) (outcome : HttpOutcome) : List Effect :=
  match channelQ with
  | none => [Effect.disconnectSocket socketId]
  | some channel =>
    if channel = "" then
      [Effect.disconnectSocket socketId]
    else
      Effect.joinChannel socketId channel ::
      match config.proxy with
      | some _ =>
        Effect.proxyDispatch
          { event := .connection, channel := channel, socketId := socketId,
            timestamp := now, data := none } true ::
        respEffects socketId (sendToProxy config outcome)
      | none =>
        [Effect.emitToSocket socketId
          { data := .textObj ("Welcome to channel: " ++ channel),
            timestamp := now, sender := some "system" }]

/-- The inbound-message handler, server.ts lines 133-162, registered
only for connections that passed the channel precondition (so `channel`
is the non-empty tag captured at connect time). -/
def onMessage (config : ServerConfig) (channel socketId : String)
    (data : JsData) (now : Nat) (outcome : HttpOutcome) : List Effect :=
  match config.proxy with
  | some _ =>
    Effect.proxyDispatch
      { event := .message, channel := channel, socketId := socketId,
        timestamp := now, data := some data } true ::
    respEffects socketId (sendToProxy config outcome)
  | none =>
    [Effect.emitToChannel channel
      { data := data, timestamp := now, sender := some socketId }]

/-- The disconnect handler, server.ts lines 165-177: when a proxy is
configured it dispatches one disconnect payload without awaiting the
result, and performs no other effect. -/
def onDisconnect (config : ServerConfig) (channel socketId : String)
    (now : Nat) : List Effect :=
  match config.proxy with
  | some _ =>
    [Effect.proxyDispatch
      { event := .disconnect, channel := channel, socketId := socketId,
        timestamp := now, data := none } false]
  | none => []

/-- The HTTP response of the POST /proxy ingestion endpoint: either the
400 client error or the success acknowledgment naming the channel. -/
inductive ProxyPostResult where
  | clientError (status : Nat) (error : String)
  | ack (success : Bool) (channel : String) (message : String)
deriving DecidableEq, Repr

/-- The POST /proxy handler, server.ts lines 63-84: rejects a missing
or empty channel query with status 400 and no effects; otherwise
broadcasts the body wrapped as a ChannelMessage with sender proxy and
the current timestamp, and acknowledges success naming the channel. -/
def proxyPost (channelQ : Option String) (body : JsData) (now : Nat) :
    ProxyPostResult × List Effect :=
  match channelQ with
  | none => (.clientError 400 "Channel parameter is required", [])
  | some channel =>
    if channel = "" then
      (.clientError 400 "Channel parameter is required", [])
    else
      (.ack true channel "Message sent to channel",
       [Effect.emitToChannel channel
         { data := body, timestamp := now, sender := some "proxy" }])

/-- Messages one effect delivers to socket `sid`, under room membership
`member` (member channel sid = true when sid is in the room named
channel): socket.emit reaches exactly its target socket, io.to(ch).emit
reaches every member of room ch. -/
def deliversTo (member : String → String → Bool) (sid : String) :
    Effect → List ChannelMessage
  | .emitToSocket s m => if s = sid then [m] else []
  | .emitToChannel ch m => if member ch sid then [m] else []
  | _ => []

/-- All messages a list of effects delivers to socket `sid`, in order. -/
def deliveries (member : String → String → Bool) (effects : List Effect)
    (sid : String) : List ChannelMessage :=
  match effects with
  | [] => []
  | e :: rest => deliversTo member sid e ++ deliveries member rest sid

/-! Helper lemmas about delivery interpretation. -/

theorem deliveries_nil (member : String → String → Bool) (sid : String) :
    deliveries member [] sid = [] := rfl

theorem deliveries_cons (member : String → String → Bool) (e : Effect)
    (rest : List Effect) (sid : String) :
    deliveries member (e :: rest) sid =
      deliversTo member sid e ++ deliveries member rest sid := rfl

theorem deliveries_map_emit_self (member : String → String → Bool)
    (sid : String) (msgs : List ChannelMessage) :
    deliveries member (List.map (Effect.emitToSocket sid) msgs) sid = msgs := by
  induction msgs with
  | nil => rfl
  | cons m rest ih =>
    simp only [List.map_cons, deliveries_cons, deliversTo, if_pos rfl, ih,
      if_true, List.singleton_append]

theorem deliveries_map_emit_other (member : String → String → Bool)
    (sid s : String) (h : s ≠ sid) (msgs : List ChannelMessage) :
    deliveries member (List.map (Effect.emitToSocket sid) msgs) s = [] := by
  induction msgs with
  | nil => rfl
  | cons m rest ih =>
    simp only [List.map_cons, deliveries_cons, deliversTo, if_neg (Ne.symm h), ih,
      List.nil_append]

theorem deliveries_respEffects_other (member : String → String → Bool)
    (sid s : String) (h : s ≠ sid) (resp : Option ProxyEventResponse) :
    deliveries member (respEffects sid resp) s = [] := by
  match resp with
  | none => rfl
  | some r =>
    match hms : r.messages with
    | some msgs =>
      simp only [respEffects, hms]
      exact deliveries_map_emit_other member sid s h msgs
    | none =>
      match hm : r.message with
      | some m =>
        simp only [respEffects, hms, hm, deliveries_cons, deliveries_nil,
          deliversTo, if_neg (Ne.symm h), List.nil_append]
      | none => simp only [respEffects, hms, hm, deliveries_nil]

theorem deliveries_single_emitChannel (member : String → String → Bool)
    (ch : String) (msg : ChannelMessage) (s : String) :
    deliveries member [Effect.emitToChannel ch msg] s
      = if member ch s = true then [msg] else [] := by
  simp [deliveries_cons, deliveries_nil, deliversTo]

theorem onConnection_noProxy_eq (port : Nat) (co channel socketId : String)
    (hch : channel ≠ "") (now : Nat) (outcome : HttpOutcome) :
    onConnection ⟨port, co, none⟩ (some channel) socketId now outcome
      = [Effect.joinChannel socketId channel,
         Effect.emitToSocket socketId
           { data := .textObj ("Welcome to channel: " ++ channel),
             timestamp := now, sender := some "system" }] := by
  simp only [onConnection]
  rw [if_neg hch]

theorem onConnection_proxy_eq (port : Nat) (co : String) (pc : ProxyConfig)
    (channel socketId : String) (hch : channel ≠ "") (now : Nat)
    (outcome : HttpOutcome) :
    onConnection ⟨port, co, some pc⟩ (some channel) socketId now outcome
      = Effect.joinChannel socketId channel ::
        Effect.proxyDispatch
          { event := .connection, channel := channel, socketId := socketId,
            timestamp := now, data := none } true ::
        respEffects socketId (sendToProxy ⟨port, co, some pc⟩ outcome) := by
  simp only [onConnection]
  rw [if_neg hch]

theorem onMessage_proxy_eq (port : Nat) (co : String) (pc : ProxyConfig)
    (channel socketId : String) (d : JsData) (now : Nat)
    (outcome : HttpOutcome) :
    onMessage ⟨port, co, some pc⟩ channel socketId d now outcome
      = Effect.proxyDispatch
          { event := .message, channel := channel, socketId := socketId,
            timestamp := now, data := some d } true ::
        respEffects socketId (sendToProxy ⟨port, co, some pc⟩ outcome) := rfl

/-- C6: the Proxy Client send operation is total and returns NoOpinion
(none) whenever no proxy is configured, whenever the HTTP status is not
a success, and whenever the transport fails or the body is malformed
JSON; being a total Lean function over all outcomes, it never raises. -/
theorem C6_sendToProxy_noopinion (port : Nat) (co : String) (pc : ProxyConfig)
    (outcome : HttpOutcome) (code : Nat) (body : Option ProxyEventResponse)
    (r : ProxyEventResponse) :
    sendToProxy ⟨port, co, none⟩ outcome = none
    ∧ sendToProxy ⟨port, co, some pc⟩ .transportError = none
    ∧ sendToProxy ⟨port, co, some pc⟩ (.response false code body) = none
    ∧ sendToProxy ⟨port, co, some pc⟩ (.response true code none) = none
    ∧ sendToProxy ⟨port, co, some pc⟩ (.response true code (some r)) = some r :=
  ⟨rfl, rfl, rfl, rfl, rfl⟩

/-- C8: a connection whose handshake channel tag is absent or empty is
terminated immediately: the only effect is the disconnect, so the
connection never joins a channel, no payload is ever dispatched to the
proxy for it, and nothing is ever delivered to it or to anyone. -/
theorem C8_missing_channel_terminates (config : ServerConfig)
    (socketId : String) (now : Nat) (outcome : HttpOutcome)
    (member : String → String → Bool) (s : String) :
    onConnection config none socketId now outcome
      = [Effect.disconnectSocket socketId]
    ∧ onConnection config (some "") socketId now outcome
      = [Effect.disconnectSocket socketId]
    ∧ deliveries member (onConnection config none socketId now outcome) s = []
    ∧ deliveries member (onConnection config (some "") socketId now outcome) s = [] :=
  ⟨rfl, rfl, rfl, rfl⟩

/-- C9: the disconnect handler with a proxy configured performs exactly
one effect, an unawaited dispatch of a ProxyEventPayload whose event is
disconnect and whose data field is absent; it delivers no message to
any connection. -/
theorem C9_disconnect_fire_and_forget (port : Nat) (co : String)
    (pc : ProxyConfig) (channel socketId : String) (now : Nat)
    (member : String → String → Bool) (s : String) :
    onDisconnect ⟨port, co, some pc⟩ channel socketId now
      = [Effect.proxyDispatch
          { event := .disconnect, channel := channel, socketId := socketId,
            timestamp := now, data := none } false]
    ∧ deliveries member (onDisconnect ⟨port, co, some pc⟩ channel socketId now) s = [] :=
  ⟨rfl, rfl⟩

/-- C4: with no mediator configured, a connection supplying a
non-empty channel tag receives exactly one welcome ChannelMessage with
sender system and data text Welcome to channel: the channel name,
delivered to that connection only, and no other effect besides the
room join. -/
theorem C4_welcome_without_mediator (port : Nat) (co channel socketId : String)
    (hch : channel ≠ "") (now : Nat) (outcome : HttpOutcome)
    (member : String → String → Bool) :
    onConnection ⟨port, co, none⟩ (some channel) socketId now outcome
      = [Effect.joinChannel socketId channel,
         Effect.emitToSocket socketId
           { data := .textObj ("Welcome to channel: " ++ channel),
             timestamp := now, sender := some "system" }]
    ∧ deliveries member
        (onConnection ⟨port, co, none⟩ (some channel) socketId now outcome) socketId
        = [{ data := .textObj ("Welcome to channel: " ++ channel),
             timestamp := now, sender := some "system" }]
    ∧ ∀ s, s ≠ socketId →
        deliveries member
          (onConnection ⟨port, co, none⟩ (some channel) socketId now outcome) s = [] := by
  have heff := onConnection_noProxy_eq port co channel socketId hch now outcome
  refine ⟨heff, ?_, ?_⟩
  · rw [heff]
    simp [deliveries_cons, deliveries_nil, deliversTo]
  · intro s hs
    rw [heff]
    simp [deliveries_cons, deliveries_nil, deliversTo, Ne.symm hs]

theorem C4_welcome_without_mediator_witness :
    onConnection ⟨3000, "*", none⟩ (some "news") "s1" 42 HttpOutcome.transportError
      = [Effect.joinChannel "s1" "news",
         Effect.emitToSocket "s1"
           { data := .textObj "Welcome to channel: news",
             timestamp := 42, sender := some "system" }]
    ∧ deliveries (fun _ _ => true)
        (onConnection ⟨3000, "*", none⟩ (some "news") "s1" 42 HttpOutcome.transportError) "s1"
        = [{ data := .textObj "Welcome to channel: news",
             timestamp := 42, sender := some "system" }]
    ∧ deliveries (fun _ _ => true)
        (onConnection ⟨3000, "*", none⟩ (some "news") "s1" 42 HttpOutcome.transportError) "s2"
        = [] := by
  have h := C4_welcome_without_mediator 3000 "*" "news" "s1" (by decide) 42
    HttpOutcome.transportError (fun _ _ => true)
  exact ⟨h.1, h.2.1, h.2.2 "s2" (by decide)⟩

/-- C5: with no mediator configured, an inbound message is wrapped into
a ChannelMessage whose sender is the originating socket id and
broadcast to the channel room, so every current member of the channel
receives exactly it, the sender included, and non-members receive
nothing. -/
theorem C5_default_broadcast (port : Nat) (co channel socketId : String)
    (d : JsData) (now : Nat) (outcome : HttpOutcome)
    (member : String → String → Bool) :
    onMessage ⟨port, co, none⟩ channel socketId d now outcome
      = [Effect.emitToChannel channel
          { data := d, timestamp := now, sender := some socketId }]
    ∧ (∀ s, member channel s = true →
        deliveries member (onMessage ⟨port, co, none⟩ channel socketId d now outcome) s
          = [{ data := d, timestamp := now, sender := some socketId }])
    ∧ (∀ s, member channel s = false →
        deliveries member (onMessage ⟨port, co, none⟩ channel socketId d now outcome) s
          = [])
    ∧ (member channel socketId = true →
        deliveries member (onMessage ⟨port, co, none⟩ channel socketId d now outcome) socketId
          = [{ data := d, timestamp := now, sender := some socketId }]) := by
  refine ⟨rfl, ?_, ?_, ?_⟩
  · intro s hs
    rw [show onMessage ⟨port, co, none⟩ channel socketId d now outcome
        = [Effect.emitToChannel channel
            { data := d, timestamp := now, sender := some socketId }] from rfl,
      deliveries_single_emitChannel, if_pos hs]
  · intro s hs
    rw [show onMessage ⟨port, co, none⟩ channel socketId d now outcome
        = [Effect.emitToChannel channel
            { data := d, timestamp := now, sender := some socketId }] from rfl,
      deliveries_single_emitChannel]
    simp [hs]
  · intro hs
    rw [show onMessage ⟨port, co, none⟩ channel socketId d now outcome
        = [Effect.emitToChannel channel
            { data := d, timestamp := now, sender := some socketId }] from rfl,
      deliveries_single_emitChannel, if_pos hs]

theorem C5_default_broadcast_witness :
    onMessage ⟨3000, "*", none⟩ "news" "s1" (JsData.raw "hi") 9 HttpOutcome.transportError
      = [Effect.emitToChannel "news"
          { data := JsData.raw "hi", timestamp := 9, sender := some "s1" }]
    ∧ deliveries (fun ch s => ch = "news" && (s = "s1" || s = "s2"))
        (onMessage ⟨3000, "*", none⟩ "news" "s1" (JsData.raw "hi") 9 HttpOutcome.transportError) "s1"
        = [{ data := JsData.raw "hi", timestamp := 9, sender := some "s1" }]
    ∧ deliveries (fun ch s => ch = "news" && (s = "s1" || s = "s2"))
        (onMessage ⟨3000, "*", none⟩ "news" "s1" (JsData.raw "hi") 9 HttpOutcome.transportError) "s2"
        = [{ data := JsData.raw "hi", timestamp := 9, sender := some "s1" }]
    ∧ deliveries (fun ch s => ch = "news" && (s = "s1" || s = "s2"))
        (onMessage ⟨3000, "*", none⟩ "news" "s1" (JsData.raw "hi") 9 HttpOutcome.transportError) "s3"
        = [] := by
  have h := C5_default_broadcast 3000 "*" "news" "s1" (JsData.raw "hi") 9
    HttpOutcome.transportError (fun ch s => ch = "news" && (s = "s1" || s = "s2"))
  exact ⟨h.1, h.2.1 "s1" (by decide), h.2.1 "s2" (by decide), h.2.2.1 "s3" (by decide)⟩

/-- C7: the POST /proxy ingestion endpoint returns status 400 and
broadcasts nothing when the channel query is missing or empty;
otherwise it broadcasts one ChannelMessage with data equal to the
request body, the current timestamp, and sender proxy to every member
of the named channel, and answers with the success acknowledgment
naming the channel even when the channel has no members. -/
theorem C7_ingestion_endpoint (body : JsData) (now : Nat) (channel : String)
    (hch : channel ≠ "") (member : String → String → Bool) :
    proxyPost none body now
      = (.clientError 400 "Channel parameter is required", [])
    ∧ proxyPost (some "") body now
      = (.clientError 400 "Channel parameter is required", [])
    ∧ proxyPost (some channel) body now
      = (.ack true channel "Message sent to channel",
         [Effect.emitToChannel channel
           { data := body, timestamp := now, sender := some "proxy" }])
    ∧ (∀ s, member channel s = true →
        deliveries member (proxyPost (some channel) body now).2 s
          = [{ data := body, timestamp := now, sender := some "proxy" }])
    ∧ (∀ s, member channel s = false →
        deliveries member (proxyPost (some channel) body now).2 s = []) := by
  have heff : proxyPost (some channel) body now
      = (.ack true channel "Message sent to channel",
         [Effect.emitToChannel channel
           { data := body, timestamp := now, sender := some "proxy" }]) := by
    simp only [proxyPost]
    rw [if_neg hch]
  refine ⟨rfl, rfl, heff, ?_, ?_⟩
  · intro s hs
    rw [heff, deliveries_single_emitChannel, if_pos hs]
  · intro s hs
    rw [heff, deliveries_single_emitChannel]
    simp [hs]

theorem C7_ingestion_endpoint_witness :
    proxyPost none (JsData.raw "alert") 11
      = (.clientError 400 "Channel parameter is required", [])
    ∧ proxyPost (some "") (JsData.raw "alert") 11
      = (.clientError 400 "Channel parameter is required", [])
    ∧ proxyPost (some "notifications") (JsData.raw "alert") 11
      = (.ack true "notifications" "Message sent to channel",
         [Effect.emitToChannel "notifications"
           { data := JsData.raw "alert", timestamp := 11, sender := some "proxy" }])
    ∧ deliveries (fun _ _ => false)
        (proxyPost (some "notifications") (JsData.raw "alert") 11).2 "s1" = [] := by
  have h := C7_ingestion_endpoint (JsData.raw "alert") 11 "notifications"
    (by decide) (fun _ _ => false)
  exact ⟨h.1, h.2.1, h.2.2.1, h.2.2.2.2 "s1" (by decide)⟩

/-- C1: when the proxy response carries a present non-empty messages
array, the router delivers exactly those entries, in order, to the
originating connection and to nobody else, on both the connection and
the message handlers; the single message field is ignored whatever it
holds, so the two fields are never both honored for one response. -/
theorem C1_messages_priority (port : Nat) (co : String) (pc : ProxyConfig)
    (channel socketId : String) (hch : channel ≠ "")
    (m? : Option ChannelMessage) (ms : List ChannelMessage) (hne : ms ≠ [])
    (d : JsData) (now code : Nat) (member : String → String → Bool) :
    deliveries member
      (onConnection ⟨port, co, some pc⟩ (some channel) socketId now
        (.response true code (some ⟨m?, some ms⟩))) socketId = ms
    ∧ (∀ s, s ≠ socketId →
        deliveries member
          (onConnection ⟨port, co, some pc⟩ (some channel) socketId now
            (.response true code (some ⟨m?, some ms⟩))) s = [])
    ∧ deliveries member
        (onMessage ⟨port, co, some pc⟩ channel socketId d now
          (.response true code (some ⟨m?, some ms⟩))) socketId = ms
    ∧ (∀ s, s ≠ socketId →
        deliveries member
          (onMessage ⟨port, co, some pc⟩ channel socketId d now
            (.response true code (some ⟨m?, some ms⟩))) s = []) := by
  have hresp : sendToProxy ⟨port, co, some pc⟩
      (.response true code (some ⟨m?, some ms⟩)) = some ⟨m?, some ms⟩ := rfl
  have hre : respEffects socketId (some (⟨m?, some ms⟩ : ProxyEventResponse))
      = List.map (Effect.emitToSocket socketId) ms := rfl
  have heffC := onConnection_proxy_eq port co pc channel socketId hch now
    (.response true code (some ⟨m?, some ms⟩))
  have heffM := onMessage_proxy_eq port co pc channel socketId d now
    (.response true code (some ⟨m?, some ms⟩))
  rw [hresp, hre] at heffC heffM
  refine ⟨?_, ?_, ?_, ?_⟩
  · rw [heffC, deliveries_cons, deliveries_cons]
    simp only [deliversTo, List.nil_append]
    exact deliveries_map_emit_self member socketId ms
  · intro s hs
    rw [heffC, deliveries_cons, deliveries_cons]
    simp only [deliversTo, List.nil_append]
    exact deliveries_map_emit_other member socketId s hs ms
  · rw [heffM, deliveries_cons]
    simp only [deliversTo, List.nil_append]
    exact deliveries_map_emit_self member socketId ms
  · intro s hs
    rw [heffM, deliveries_cons]
    simp only [deliversTo, List.nil_append]
    exact deliveries_map_emit_other member socketId s hs ms

theorem C1_messages_priority_witness :
    deliveries (fun _ _ => true)
      (onConnection ⟨3000, "*", some ⟨"u", none⟩⟩ (some "c") "s" 7
        (.response true 200 (some ⟨some { data := JsData.raw "single", timestamp := 1, sender := some "p" },
          some [{ data := JsData.raw "a", timestamp := 2, sender := none },
                { data := JsData.raw "b", timestamp := 3, sender := none }]⟩))) "s"
      = [{ data := JsData.raw "a", timestamp := 2, sender := none },
         { data := JsData.raw "b", timestamp := 3, sender := none }]
    ∧ deliveries (fun _ _ => true)
        (onConnection ⟨3000, "*", some ⟨"u", none⟩⟩ (some "c") "s" 7
          (.response true 200 (some ⟨some { data := JsData.raw "single", timestamp := 1, sender := some "p" },
            some [{ data := JsData.raw "a", timestamp := 2, sender := none },
                  { data := JsData.raw "b", timestamp := 3, sender := none }]⟩))) "t"
        = []
    ∧ deliveries (fun _ _ => true)
        (onMessage ⟨3000, "*", some ⟨"u", none⟩⟩ "c" "s" (JsData.raw "d") 7
          (.response true 200 (some ⟨some { data := JsData.raw "single", timestamp := 1, sender := some "p" },
            some [{ data := JsData.raw "a", timestamp := 2, sender := none },
                  { data := JsData.raw "b", timestamp := 3, sender := none }]⟩))) "s"
        = [{ data := JsData.raw "a", timestamp := 2, sender := none },
           { data := JsData.raw "b", timestamp := 3, sender := none }]
    ∧ deliveries (fun _ _ => true)
        (onMessage ⟨3000, "*", some ⟨"u", none⟩⟩ "c" "s" (JsData.raw "d") 7
          (.response true 200 (some ⟨some { data := JsData.raw "single", timestamp := 1, sender := some "p" },
            some [{ data := JsData.raw "a", timestamp := 2, sender := none },
                  { data := JsData.raw "b", timestamp := 3, sender := none }]⟩))) "t"
        = [] := by
  have h := C1_messages_priority 3000 "*" ⟨"u", none⟩ "c" "s" (by decide)
    (some { data := JsData.raw "single", timestamp := 1, sender := some "p" })
    [{ data := JsData.raw "a", timestamp := 2, sender := none },
     { data := JsData.raw "b", timestamp := 3, sender := none }] (by decide)
    (JsData.raw "d") 7 200 (fun _ _ => true)
  exact ⟨h.1, h.2.1 "t" (by decide), h.2.2.1, h.2.2.2 "t" (by decide)⟩

/-- C2: on a connection event with a mediator configured, whenever the
Proxy Client yields NoOpinion (transport failure, non-success status,
malformed body) or a response carrying neither messages nor a message,
no connection receives anything; in particular the default welcome
ChannelMessage is not sent. -/
theorem C2_mediated_silence (port : Nat) (co : String) (pc : ProxyConfig)
    (channel socketId : String) (hch : channel ≠ "") (now code : Nat)
    (body? : Option ProxyEventResponse) (member : String → String → Bool) :
    (∀ s, deliveries member
        (onConnection ⟨port, co, some pc⟩ (some channel) socketId now
          .transportError) s = [])
    ∧ (∀ s, deliveries member
        (onConnection ⟨port, co, some pc⟩ (some channel) socketId now
          (.response false code body?)) s = [])
    ∧ (∀ s, deliveries member
        (onConnection ⟨port, co, some pc⟩ (some channel) socketId now
          (.response true code none)) s = [])
    ∧ (∀ s, deliveries member
        (onConnection ⟨port, co, some pc⟩ (some channel) socketId now
          (.response true code (some ⟨none, none⟩))) s = []) := by
  refine ⟨?_, ?_, ?_, ?_⟩ <;>
    intro s <;>
    rw [onConnection_proxy_eq port co pc channel socketId hch now _] <;>
    rfl

theorem C2_mediated_silence_witness :
    deliveries (fun _ _ => true)
      (onConnection ⟨3000, "*", some ⟨"u", none⟩⟩ (some "c") "s" 7
        HttpOutcome.transportError) "s" = []
    ∧ deliveries (fun _ _ => true)
        (onConnection ⟨3000, "*", some ⟨"u", none⟩⟩ (some "c") "s" 7
          (.response false 500 none)) "s" = []
    ∧ deliveries (fun _ _ => true)
        (onConnection ⟨3000, "*", some ⟨"u", none⟩⟩ (some "c") "s" 7
          (.response true 500 none)) "s" = []
    ∧ deliveries (fun _ _ => true)
        (onConnection ⟨3000, "*", some ⟨"u", none⟩⟩ (some "c") "s" 7
          (.response true 500 (some ⟨none, none⟩))) "s" = [] := by
  have h := C2_mediated_silence 3000 "*" ⟨"u", none⟩ "c" "s" (by decide) 7 500
    none (fun _ _ => true)
  exact ⟨h.1 "s", h.2.1 "s", h.2.2.1 "s", h.2.2.2 "s"⟩

/-- C10: a proxy response whose messages field is present but empty
(the empty array is truthy in JS) takes the messages branch and so
delivers nothing, to anyone, even when the response also carries a
message field; presence of messages, not its non-emptiness, suppresses
the single message, on both the connection and the message handlers. -/
theorem C10_empty_messages_suppresses (port : Nat) (co : String)
    (pc : ProxyConfig) (channel socketId : String) (hch : channel ≠ "")
    (m : ChannelMessage) (d : JsData) (now code : Nat)
    (member : String → String → Bool) :
    (∀ s, deliveries member
        (onConnection ⟨port, co, some pc⟩ (some channel) socketId now
          (.response true code (some ⟨some m, some []⟩))) s = [])
    ∧ (∀ s, deliveries member
        (onMessage ⟨port, co, some pc⟩ channel socketId d now
          (.response true code (some ⟨some m, some []⟩))) s = []) := by
  constructor
  · intro s
    rw [onConnection_proxy_eq port co pc channel socketId hch now _]
    rfl
  · intro s
    rfl

theorem C10_empty_messages_suppresses_witness :
    deliveries (fun _ _ => true)
      (onConnection ⟨3000, "*", some ⟨"u", none⟩⟩ (some "c") "s" 7
        (.response true 200
          (some ⟨some { data := JsData.raw "single", timestamp := 1, sender := some "p" },
                 some []⟩))) "s" = []
    ∧ deliveries (fun _ _ => true)
        (onMessage ⟨3000, "*", some ⟨"u", none⟩⟩ "c" "s" (JsData.raw "d") 7
          (.response true 200
            (some ⟨some { data := JsData.raw "single", timestamp := 1, sender := some "p" },
                   some []⟩))) "s" = [] := by
  have h := C10_empty_messages_suppresses 3000 "*" ⟨"u", none⟩ "c" "s" (by decide)
    { data := JsData.raw "single", timestamp := 1, sender := some "p" }
    (JsData.raw "d") 7 200 (fun _ _ => true)
  exact ⟨h.1 "s", h.2 "s"⟩

/-- C3 counterexample: a mediator response message created at an
earlier time is forwarded verbatim by the connection handler running at
time 5; the delivered ChannelMessage still carries timestamp 0, so a
delivered timestamp is not always assigned at the moment of send. -/
theorem C3_counterexample :
    deliveries (fun _ _ => true)
      (onConnection ⟨3000, "*", some ⟨"u", none⟩⟩ (some "c") "s" 5
        (.response true 200
          (some ⟨some { data := JsData.raw "old", timestamp := 0, sender := some "p" },
                 none⟩))) "s"
      = [{ data := JsData.raw "old", timestamp := 0, sender := some "p" }]
    ∧ (0 : Nat) ≠ 5 := by decide

/-- C3 (amended): the timestamp is assigned fresh at the moment of send
for every ChannelMessage the server itself synthesizes — the default
welcome, the no-mediator broadcast and the ingestion-endpoint message —
while ChannelMessages supplied by the mediator response are forwarded
verbatim to the originating connection, their timestamp field included. -/
theorem C3_fresh_timestamps_amended (port : Nat) (co channel socketId : String)
    (hch : channel ≠ "") (pc : ProxyConfig) (m? : Option ChannelMessage)
    (ms : List ChannelMessage) (d body : JsData) (now code : Nat)
    (outcome : HttpOutcome) (member : String → String → Bool) :
    (∀ s m, m ∈ deliveries member
        (onConnection ⟨port, co, none⟩ (some channel) socketId now outcome) s →
        m.timestamp = now)
    ∧ (∀ s m, m ∈ deliveries member
        (onMessage ⟨port, co, none⟩ channel socketId d now outcome) s →
        m.timestamp = now)
    ∧ (∀ s m, m ∈ deliveries member (proxyPost (some channel) body now).2 s →
        m.timestamp = now)
    ∧ deliveries member
        (onConnection ⟨port, co, some pc⟩ (some channel) socketId now
          (.response true code (some ⟨m?, some ms⟩))) socketId = ms := by
  refine ⟨?_, ?_, ?_, ?_⟩
  · intro s m hm
    rw [onConnection_noProxy_eq port co channel socketId hch now outcome] at hm
    simp only [deliveries_cons, deliveries_nil, deliversTo, List.nil_append,
      List.append_nil] at hm
    split at hm
    · rw [List.mem_singleton.mp hm]
    · simp at hm
  · intro s m hm
    rw [show onMessage ⟨port, co, none⟩ channel socketId d now outcome
        = [Effect.emitToChannel channel
            { data := d, timestamp := now, sender := some socketId }] from rfl,
      deliveries_single_emitChannel] at hm
    split at hm
    · rw [List.mem_singleton.mp hm]
    · simp at hm
  · intro s m hm
    have heff : (proxyPost (some channel) body now).2
        = [Effect.emitToChannel channel
            { data := body, timestamp := now, sender := some "proxy" }] := by
      simp only [proxyPost]
      rw [if_neg hch]
    rw [heff, deliveries_single_emitChannel] at hm
    split at hm
    · rw [List.mem_singleton.mp hm]
    · simp at hm
  · have hresp : sendToProxy ⟨port, co, some pc⟩
        (.response true code (some ⟨m?, some ms⟩)) = some ⟨m?, some ms⟩ := rfl
    have hre : respEffects socketId (some (⟨m?, some ms⟩ : ProxyEventResponse))
        = List.map (Effect.emitToSocket socketId) ms := rfl
    have heffC := onConnection_proxy_eq port co pc channel socketId hch now
      (.response true code (some ⟨m?, some ms⟩))
    rw [hresp, hre] at heffC
    rw [heffC, deliveries_cons, deliveries_cons]
    simp only [deliversTo, List.nil_append]
    exact deliveries_map_emit_self member socketId ms

theorem C3_fresh_timestamps_amended_witness :
    ({ data := JsData.textObj "Welcome to channel: c", timestamp := 7,
       sender := some "system" } : ChannelMessage)
      ∈ deliveries (fun _ _ => true)
          (onConnection ⟨3000, "*", none⟩ (some "c") "s" 7
            HttpOutcome.transportError) "s"
    ∧ ({ data := JsData.textObj "Welcome to channel: c", timestamp := 7,
         sender := some "system" } : ChannelMessage).timestamp = 7
    ∧ deliveries (fun _ _ => true)
        (onConnection ⟨3000, "*", some ⟨"u", none⟩⟩ (some "c") "s" 7
          (.response true 200
            (some ⟨none, some [{ data := JsData.raw "a", timestamp := 2, sender := none }]⟩))) "s"
        = [{ data := JsData.raw "a", timestamp := 2, sender := none }] := by
  have h := C3_fresh_timestamps_amended 3000 "*" "c" "s" (by decide) ⟨"u", none⟩
    none [{ data := JsData.raw "a", timestamp := 2, sender := none }]
    (JsData.raw "d") (JsData.raw "b") 7 200 HttpOutcome.transportError
    (fun _ _ => true)
  refine ⟨by decide, ?_, h.2.2.2⟩
  exact h.1 "s" _ (by decide)

end BroadcastSocket
